import Mathlib

/-!
Verification of the PD portfolio roll-forward automation
(`Main.py`, `PD.py`, `Scripts/Class/BasicExcelFunctionsClass.py`).

The development shallowly embeds the month arithmetic, the record
merge/deduplication, the window allocator and the orchestrator control flow
of the source, and proves or refutes the frozen specification claims.
-/

/-- A Python `datetime` restricted to its date fields, as used by the scripts. -/
structure PyDate where
  year : Int
  month : Int
  day : Int
deriving DecidableEq

instance : Inhabited PyDate := ⟨⟨1, 1, 1⟩⟩

/-- `calendar.isleap(year)`. -/
def isleap (y : Int) : Bool := y % 4 == 0 && (y % 100 != 0 || y % 400 == 0)

/-- `calendar.monthrange(year, month)[1]`: number of days in the month. -/
def daysInMonth (y m : Int) : Int :=
  if m = 2 then (if isleap y then 29 else 28)
  else if m = 4 ∨ m = 6 ∨ m = 9 ∨ m = 11 then 30
  else 31

/-- A structurally valid Python date (`datetime` constructor constraints). -/
def PyDate.Valid (d : PyDate) : Prop :=
  1 ≤ d.year ∧ d.year ≤ 9999 ∧ 1 ≤ d.month ∧ d.month ≤ 12 ∧
    1 ≤ d.day ∧ d.day ≤ daysInMonth d.year d.month

instance (d : PyDate) : Decidable d.Valid := by
  unfold PyDate.Valid; exact inferInstance

/-- `date.day == calendar.monthrange(date.year, date.month)[1]`, the month-end
test computed by `ExcelPortfolioAutomation.add_months`. -/
def is_month_end (d : PyDate) : Bool := decide (d.day = daysInMonth d.year d.month)

namespace Main

/-- `Main.add_months`: Python `//` and `%` are floor division/modulus, embedded
with `Int.fdiv`/`Int.fmod`. The day is always `min(date.day, target month length)`. -/
def add_months (date : PyDate) (months : Int) : PyDate :=
  let month := date.month - 1 + months
  let year := date.year + month.fdiv 12
  let month2 := month.fmod 12 + 1
  let day := min date.day (daysInMonth year month2)
  ⟨year, month2, day⟩

/-- `Main.months_between`. -/
def months_between (start_date end_date : PyDate) : Int :=
  (end_date.year - start_date.year) * 12 + (end_date.month - start_date.month)

end Main

namespace ExcelPortfolioAutomation

/-- `ExcelPortfolioAutomation.add_months`: same target-month computation as
`Main.add_months`, but with explicit month-end stickiness. -/
def add_months (date : PyDate) (months : Int) : PyDate :=
  let month := date.month - 1 + months
  let year := date.year + month.fdiv 12
  let month2 := month.fmod 12 + 1
  let target_month_last_day := daysInMonth year month2
  let day := if is_month_end date then target_month_last_day
             else min date.day target_month_last_day
  ⟨year, month2, day⟩

/-- `ExcelPortfolioAutomation.months_between` (identical to `Main.months_between`). -/
def months_between (start_date end_date : PyDate) : Int :=
  (end_date.year - start_date.year) * 12 + (end_date.month - start_date.month)

end ExcelPortfolioAutomation

/-- Strict chronological order on dates, as pandas timestamp comparison. -/
def PyDate.Before (a b : PyDate) : Prop :=
  a.year < b.year ∨ (a.year = b.year ∧
    (a.month < b.month ∨ (a.month = b.month ∧ a.day < b.day)))

instance (a b : PyDate) : Decidable (a.Before b) := by
  unfold PyDate.Before; exact inferInstance

theorem PyDate.before_trans {a b c : PyDate} (h1 : a.Before b) (h2 : b.Before c) :
    a.Before c := by
  rcases a with ⟨ya, ma, da⟩; rcases b with ⟨yb, mb, db⟩; rcases c with ⟨yc, mc, dc⟩
  simp only [PyDate.Before] at h1 h2 ⊢
  omega

theorem PyDate.before_trichotomy (a b : PyDate) :
    a.Before b ∨ a = b ∨ b.Before a := by
  rcases a with ⟨ya, ma, da⟩; rcases b with ⟨yb, mb, db⟩
  simp only [PyDate.Before, PyDate.mk.injEq]
  omega

theorem PyDate.before_irrefl (a : PyDate) : ¬ a.Before a := by
  rcases a with ⟨ya, ma, da⟩
  simp only [PyDate.Before]
  omega

-- =========================================================================
-- Month-string parsing and formatting (`%m/%d/%Y`)
-- =========================================================================

/-- Split a character list on `/` separators (helper for `parseMonthString`). -/
def splitOnSlashAux : List Char → List Char → List (List Char)
  | [], acc => [acc.reverse]
  | c :: cs, acc =>
    if c = '/' then acc.reverse :: splitOnSlashAux cs []
    else splitOnSlashAux cs (c :: acc)

def splitOnSlash (cs : List Char) : List (List Char) := splitOnSlashAux cs []

/-- Read a nonempty all-digit character list as a number. -/
def digitsToNat (cs : List Char) : Option Nat :=
  if cs.isEmpty || !cs.all Char.isDigit then none
  else some (cs.foldl (fun acc c => acc * 10 + (c.toNat - 48)) 0)

/-- `datetime.strptime(s, '%m/%d/%Y')`, with `None` for a parse failure —
also the behavior of `pd.to_datetime(s, format='%m/%d/%Y', errors='coerce')`
where the failure value `NaT` is subsequently dropped or filtered out. -/
def parseMonthString (s : String) : Option PyDate :=
  match splitOnSlash s.data with
  | [mm, dd, yyyy] =>
    match digitsToNat mm, digitsToNat dd, digitsToNat yyyy with
    | some m, some d, some y =>
      if 1 ≤ m ∧ m ≤ 12 ∧ 1 ≤ y ∧ y ≤ 9999 ∧ 1 ≤ d ∧
          (d : Int) ≤ daysInMonth (y : Int) (m : Int) then
        some ⟨(y : Int), (m : Int), (d : Int)⟩
      else none
    | _, _, _ => none
  | _ => none

/-- `format_month_string` / `date.strftime('%m/%d/%Y')`. -/
def format_month_string (d : PyDate) : String :=
  (if d.month < 10 then "0" ++ toString d.month else toString d.month) ++ "/" ++
    (if d.day < 10 then "0" ++ toString d.day else toString d.day) ++ "/" ++
    toString d.year

-- =========================================================================
-- Records and the merge / deduplication engine
-- =========================================================================

/-- One row of the portfolio dataframes: the five mapped columns.  The `MONTH`
column is stored exactly as in the dataframes: a raw text string. -/
structure Record where
  MONTH : String
  CONTRACT_NO : String
  EQT_DESC : String
  PD_CATEGORY : String
  DPD : String
deriving DecidableEq

/-- The deduplication subset `['MONTH', 'CONTRACT_NO']` of
`drop_duplicates`: both components compared as raw values. -/
def recordKey (r : Record) : String × String := (r.MONTH, r.CONTRACT_NO)

/-- `DataFrame.drop_duplicates(subset=['MONTH','CONTRACT_NO'], keep='last')`:
a row survives exactly when no later row carries the same key; surviving rows
keep their relative order. -/
def drop_duplicates_keep_last : List Record → List Record
  | [] => []
  | r :: rs =>
    if rs.any (fun s => decide (recordKey s = recordKey r)) then
      drop_duplicates_keep_last rs
    else
      r :: drop_duplicates_keep_last rs

theorem mem_of_mem_drop_duplicates {x : Record} :
    ∀ {l : List Record}, x ∈ drop_duplicates_keep_last l → x ∈ l := by
  intro l
  induction l with
  | nil => simp [drop_duplicates_keep_last]
  | cons r rs ih =>
    simp only [drop_duplicates_keep_last]
    split
    · intro h; exact List.mem_cons_of_mem _ (ih h)
    · intro h
      rcases List.mem_cons.mp h with h | h
      · exact h ▸ List.mem_cons_self _ _
      · exact List.mem_cons_of_mem _ (ih h)

/-- Rows surviving `keep='last'` deduplication, restricted to one key, are
exactly the last arriving row with that key. -/
theorem drop_duplicates_filter_key (l : List Record) (k : String × String) :
    (drop_duplicates_keep_last l).filter (fun r => decide (recordKey r = k))
      = (l.filter (fun r => decide (recordKey r = k))).getLast?.toList := by
  induction l with
  | nil => simp [drop_duplicates_keep_last]
  | cons r rs ih =>
    simp only [drop_duplicates_keep_last]
    by_cases hshort : rs.any (fun s => decide (recordKey s = recordKey r)) = true
    · rw [if_pos hshort]
      by_cases hk : recordKey r = k
      · have hne : rs.filter (fun s => decide (recordKey s = k)) ≠ [] := by
          rcases List.any_eq_true.mp hshort with ⟨s, hs, hsk⟩
          have hsk2 : recordKey s = k := by
            rw [of_decide_eq_true hsk, hk]
          intro hempty
          have : s ∈ rs.filter (fun s => decide (recordKey s = k)) :=
            List.mem_filter.mpr ⟨hs, decide_eq_true hsk2⟩
          rw [hempty] at this
          exact List.not_mem_nil _ this
        rw [ih]
        rcases hx : rs.filter (fun s => decide (recordKey s = k)) with _ | ⟨x, xs⟩
        · exact absurd hx hne
        · simp [List.filter_cons, hk, hx]
      · simp [List.filter_cons, hk, ih]
    · rw [if_neg hshort]
      have hnone : ∀ s ∈ rs, recordKey s ≠ recordKey r := by
        intro s hs hcontra
        exact hshort (List.any_eq_true.mpr ⟨s, hs, decide_eq_true hcontra⟩)
      by_cases hk : recordKey r = k
      · have hfilrs : rs.filter (fun s => decide (recordKey s = k)) = [] := by
          apply List.filter_eq_nil_iff.mpr
          intro s hs
          simp only [decide_eq_true_eq]
          intro hcontra
          exact hnone s hs (hcontra.trans hk.symm)
        have hfildd : (drop_duplicates_keep_last rs).filter
            (fun s => decide (recordKey s = k)) = [] := by
          apply List.filter_eq_nil_iff.mpr
          intro s hs
          simp only [decide_eq_true_eq]
          intro hcontra
          exact hnone s (mem_of_mem_drop_duplicates hs) (hcontra.trans hk.symm)
        simp [List.filter_cons, hk, hfilrs, hfildd]
      · simp [List.filter_cons, hk, ih]

/-- After `keep='last'` deduplication every key occurs at most once. -/
theorem drop_duplicates_keys_nodup (l : List Record) :
    ((drop_duplicates_keep_last l).map recordKey).Nodup := by
  induction l with
  | nil => simp [drop_duplicates_keep_last]
  | cons r rs ih =>
    simp only [drop_duplicates_keep_last]
    split
    · exact ih
    · rename_i hshort
      simp only [List.map_cons, List.nodup_cons]
      refine ⟨?_, ih⟩
      intro hmem
      rcases List.mem_map.mp hmem with ⟨s, hs, hsk⟩
      exact hshort (List.any_eq_true.mpr
        ⟨s, mem_of_mem_drop_duplicates hs, decide_eq_true hsk⟩)

-- =========================================================================
-- Unique sorted months (`sorted(set(...))`) and month filtering
-- =========================================================================

/-- Insert a month into a strictly-increasing month list, skipping an exact
duplicate.  Folding this over a list yields `sorted(set(...))`: the unique
strictly-increasing enumeration of the distinct values. -/
def insertMonth (d : PyDate) : List PyDate → List PyDate
  | [] => [d]
  | x :: xs =>
    if d.Before x then d :: x :: xs
    else if d = x then x :: xs
    else x :: insertMonth d xs

/-- `sorted(set(l))` for a list of month values. -/
def sortMonths (l : List PyDate) : List PyDate := l.foldr insertMonth []

theorem mem_insertMonth {y d : PyDate} :
    ∀ {l : List PyDate}, y ∈ insertMonth d l ↔ y = d ∨ y ∈ l := by
  intro l
  induction l with
  | nil => simp [insertMonth]
  | cons x xs ih =>
    simp only [insertMonth]
    split
    · simp [List.mem_cons]
    · split
      · rename_i hne heq
        subst heq
        simp only [List.mem_cons]
        constructor
        · tauto
        · rintro (h | h | h) <;> simp [h]
      · simp only [List.mem_cons, ih]
        tauto

theorem pairwise_insertMonth {d : PyDate} :
    ∀ {l : List PyDate}, l.Pairwise PyDate.Before →
      (insertMonth d l).Pairwise PyDate.Before := by
  intro l
  induction l with
  | nil => simp [insertMonth]
  | cons x xs ih =>
    intro hp
    rcases List.pairwise_cons.mp hp with ⟨hx, hxs⟩
    simp only [insertMonth]
    split
    · rename_i hdx
      refine List.pairwise_cons.mpr ⟨?_, hp⟩
      intro y hy
      rcases List.mem_cons.mp hy with h | h
      · exact h ▸ hdx
      · exact PyDate.before_trans hdx (hx y h)
    · split
      · exact hp
      · rename_i hndx hne
        have hxd : x.Before d := by
          rcases PyDate.before_trichotomy d x with h | h | h
          · exact absurd h hndx
          · exact absurd h hne
          · exact h
        refine List.pairwise_cons.mpr ⟨?_, ih hxs⟩
        intro y hy
        rcases mem_insertMonth.mp hy with h | h
        · exact h ▸ hxd
        · exact hx y h

theorem pairwise_sortMonths (l : List PyDate) :
    (sortMonths l).Pairwise PyDate.Before := by
  induction l with
  | nil => simp [sortMonths]
  | cons x xs ih => exact pairwise_insertMonth ih

theorem mem_sortMonths {y : PyDate} :
    ∀ {l : List PyDate}, y ∈ sortMonths l ↔ y ∈ l := by
  intro l
  induction l with
  | nil => simp [sortMonths]
  | cons x xs ih =>
    show y ∈ insertMonth x (sortMonths xs) ↔ _
    rw [mem_insertMonth]
    simp [ih]

/-- `get_unique_months` / `get_unique_months_from_dataframe`: parse the raw
`MONTH` strings (coercion failures dropped), deduplicate and sort ascending. -/
def get_unique_months (rows : List Record) : List PyDate :=
  sortMonths (rows.filterMap (fun r => parseMonthString r.MONTH))

/-- The row-selection predicate of `filter_by_months`: the parsed `MONTH`
value is one of the months to keep (a coercion failure selects nothing). -/
def monthKeep (months_to_keep : List PyDate) (r : Record) : Bool :=
  match parseMonthString r.MONTH with
  | some d => decide (d ∈ months_to_keep)
  | none => false

/-- `filter_by_months` / `filter_dataframe_by_months`. -/
def filter_by_months (rows : List Record) (months_to_keep : List PyDate) :
    List Record :=
  rows.filter (monthKeep months_to_keep)

-- =========================================================================
-- The window allocator (`run_automation`, steps at lines 377-404)
-- =========================================================================

def PORTFOLIO_2_MONTHS : Nat := 6
def PORTFOLIO_1_MONTHS : Nat := 7
def TOTAL_MONTHS : Nat := 13

/-- `if len(all_months) > TOTAL_MONTHS: all_months = all_months[-TOTAL_MONTHS:]`. -/
def truncateWindow (all_months : List PyDate) : List PyDate :=
  if TOTAL_MONTHS < all_months.length then
    all_months.drop (all_months.length - TOTAL_MONTHS)
  else all_months

/-- `all_months[:PORTFOLIO_1_MONTHS] if len(all_months) > PORTFOLIO_2_MONTHS else []`. -/
def new_p1_months (all_months : List PyDate) : List PyDate :=
  if PORTFOLIO_2_MONTHS < all_months.length then
    all_months.take PORTFOLIO_1_MONTHS
  else []

/-- `all_months[-PORTFOLIO_2_MONTHS:] if len(all_months) >= PORTFOLIO_2_MONTHS else all_months`. -/
def new_p2_months (all_months : List PyDate) : List PyDate :=
  if PORTFOLIO_2_MONTHS ≤ all_months.length then
    all_months.drop (all_months.length - PORTFOLIO_2_MONTHS)
  else all_months

-- =========================================================================
-- The roll-forward orchestrator (`run_automation`)
-- =========================================================================

/-- The distinct fatal-return paths of `run_automation` (each prints its own
`ERROR:` message and returns `False`). -/
inductive RunError
  | noForwardProgress
  | noSummaryFiles
  | noDataExtracted
deriving DecidableEq

/-- The externally observable outcome of one `run_automation` invocation:
the boolean return value, which early-exit path (if any) was taken, the
portfolio rows written to `Portfolio_1`/`Portfolio_2` (none if the run
aborted before writing), the anchor written back to the config file (none if
`save_config` was never reached), and the months whose summary files were
located and extracted. -/
structure RunResult where
  success : Bool
  error : Option RunError
  writes : Option (List Record × List Record)
  savedConfig : Option PyDate
  extractedMonths : List PyDate
deriving DecidableEq

/-- The environment of one run: the anchor read from the config file, the
requested end month from `argv`, which summary files exist on disk, the
(already column-mapped and row-filtered) rows each summary file yields, and
the current contents of the two portfolio sheets. -/
structure RunInput where
  current_latest : PyDate
  new_end_month : PyDate
  hasFile : PyDate → Bool
  dataFor : PyDate → List Record
  p1_data : List Record
  p2_data : List Record

/-- `find_summary_files(start_month, num_months)`: for `i in range(1,
num_months+1)` glob for the file of `add_months(start_month, i)`; a miss only
prints a warning and is skipped. -/
def find_summary_files (hasFile : PyDate → Bool) (start_month : PyDate)
    (num_months : Nat) : List PyDate :=
  (List.range' 1 num_months).filterMap (fun i =>
    let target_date := Main.add_months start_month (i : Int)
    if hasFile target_date then some target_date else none)

/-- `extract_summary_data`: concatenate the rows of every located file, with
the `MONTH` column overwritten by the formatted month of the file. -/
def extract_summary_data (dataFor : PyDate → List Record)
    (found : List PyDate) : List Record :=
  (found.map (fun d =>
    (dataFor d).map (fun r => { r with MONTH := format_month_string d }))).flatten

/-- Strict "comes before" on rows for the month sort: pandas
`sort_values('MONTH', key=to_datetime)` compares parsed months, unparseable
values last. -/
def monthBefore (a b : Record) : Bool :=
  match parseMonthString a.MONTH, parseMonthString b.MONTH with
  | some x, some y => decide (x.Before y)
  | some _, none => true
  | none, _ => false

/-- Stable insertion for the month sort. -/
def insertByMonth (r : Record) : List Record → List Record
  | [] => [r]
  | x :: xs => if monthBefore x r then x :: insertByMonth r xs else r :: x :: xs

/-- `DataFrame.sort_values('MONTH', key=pd.to_datetime)` — a stable sort by
parsed month. -/
def sort_values_by_month (rows : List Record) : List Record :=
  rows.foldr insertByMonth []

/-- `months_between(current_latest, new_end_month)` (step 3). -/
def num_new_months (inp : RunInput) : Int :=
  Main.months_between inp.current_latest inp.new_end_month

/-- Step 3 clamp: `if num_new_months > PORTFOLIO_2_MONTHS: num_new_months =
PORTFOLIO_2_MONTHS`. -/
def clamped_new_months (inp : RunInput) : Int :=
  if num_new_months inp > (PORTFOLIO_2_MONTHS : Int) then (PORTFOLIO_2_MONTHS : Int)
  else num_new_months inp

def summary_files (inp : RunInput) : List PyDate :=
  find_summary_files inp.hasFile inp.current_latest (clamped_new_months inp).toNat

def new_data (inp : RunInput) : List Record :=
  extract_summary_data inp.dataFor (summary_files inp)

/-- `run_automation` (`Main.py` lines 307-432): the complete control flow of
one roll-forward run, with the Excel/file side effects recorded in the
result.  `save_config(new_end_month)` at line 426 runs only after a fully
successful roll-forward. -/
def run_automation (inp : RunInput) : RunResult :=
  if num_new_months inp ≤ 0 then
    { success := false, error := some RunError.noForwardProgress,
      writes := none, savedConfig := none, extractedMonths := [] }
  else if summary_files inp = [] then
    { success := false, error := some RunError.noSummaryFiles,
      writes := none, savedConfig := none, extractedMonths := [] }
  else if new_data inp = [] then
    { success := false, error := some RunError.noDataExtracted,
      writes := none, savedConfig := none, extractedMonths := summary_files inp }
  else
    let p1_months := get_unique_months inp.p1_data
    let p2_months := get_unique_months inp.p2_data
    let nw_months := get_unique_months (new_data inp)
    let all_months := truncateWindow (sortMonths (p1_months ++ p2_months ++ nw_months))
    let p1m := new_p1_months all_months
    let p2m := new_p2_months all_months
    let all_data := drop_duplicates_keep_last (inp.p1_data ++ inp.p2_data ++ new_data inp)
    let new_p1_data := sort_values_by_month (filter_by_months all_data p1m)
    let new_p2_data := sort_values_by_month (filter_by_months all_data p2m)
    { success := true, error := none,
      writes := some (new_p1_data, new_p2_data),
      savedConfig := some inp.new_end_month,
      extractedMonths := summary_files inp }

-- =========================================================================
-- Claim C8 — monthsBetween(a, addMonths(a, n)) = n
-- =========================================================================

/-- C8: for every valid date `a` and every integer `n` (including negative
`n`), `months_between a (add_months a n) = n`, for both the `Main.py` and the
`ExcelPortfolioAutomation` revisions of the month arithmetic. -/
theorem C8_months_between_add_months (a : PyDate) (n : Int) (h : a.Valid) :
    Main.months_between a (Main.add_months a n) = n ∧
    ExcelPortfolioAutomation.months_between a
      (ExcelPortfolioAutomation.add_months a n) = n := by
  have key := Int.fdiv_add_fmod (a.month - 1 + n) 12
  constructor
  · simp only [Main.months_between, Main.add_months]
    omega
  · simp only [ExcelPortfolioAutomation.months_between,
      ExcelPortfolioAutomation.add_months]
    omega

/-- C8 witness: a concrete valid date with a negative month delta. -/
theorem C8_witness :
    PyDate.Valid ⟨2025, 1, 31⟩ ∧
    (Main.months_between ⟨2025, 1, 31⟩ (Main.add_months ⟨2025, 1, 31⟩ (-7)) = -7 ∧
     ExcelPortfolioAutomation.months_between ⟨2025, 1, 31⟩
       (ExcelPortfolioAutomation.add_months ⟨2025, 1, 31⟩ (-7)) = -7) :=
  ⟨by decide, C8_months_between_add_months ⟨2025, 1, 31⟩ (-7) (by decide)⟩

-- =========================================================================
-- Claim C6 — month-end policy of addMonths
-- =========================================================================

/-- C6 counterexample: `Main.add_months` (Main.py lines 60-66), one of the two
cited `addMonths` revisions, has no month-end stickiness: June 30, 2025 is the
last day of its month, yet adding one month lands on July 30, not July 31. -/
theorem C6_counterexample :
    is_month_end ⟨2025, 6, 30⟩ = true ∧
    Main.add_months ⟨2025, 6, 30⟩ 1 = ⟨2025, 7, 30⟩ ∧
    is_month_end (Main.add_months ⟨2025, 6, 30⟩ 1) = false := by
  decide

/-- C6 amended: the claimed policy (month-end input gives month-end output,
otherwise the day is preserved capped at the target month's length) holds for
`ExcelPortfolioAutomation.add_months`; `Main.add_months` instead always caps
the day at the target month's length, so its result is month-end only when
that cap binds. -/
theorem C6_amended_month_end_policy (d : PyDate) (n : Int) :
    (is_month_end d = true →
      is_month_end (ExcelPortfolioAutomation.add_months d n) = true) ∧
    (is_month_end d = false →
      (ExcelPortfolioAutomation.add_months d n).day =
        min d.day (daysInMonth (ExcelPortfolioAutomation.add_months d n).year
          (ExcelPortfolioAutomation.add_months d n).month)) ∧
    (Main.add_months d n).day =
      min d.day (daysInMonth (Main.add_months d n).year
        (Main.add_months d n).month) := by
  refine ⟨?_, ?_, ?_⟩
  · intro h
    simp only [ExcelPortfolioAutomation.add_months]
    rw [if_pos h]
    simp [is_month_end]
  · intro h
    simp only [ExcelPortfolioAutomation.add_months]
    rw [if_neg (by simp [h])]
  · simp [Main.add_months]

/-- C6 witness: Jan 31, 2025 is month-end and one month later the sticky
revision lands on Feb 28, 2025, again month-end. -/
theorem C6_witness :
    is_month_end ⟨2025, 1, 31⟩ = true ∧
    is_month_end (ExcelPortfolioAutomation.add_months ⟨2025, 1, 31⟩ 1) = true :=
  ⟨by decide, (C6_amended_month_end_policy ⟨2025, 1, 31⟩ 1).1 (by decide)⟩

-- =========================================================================
-- Claim C7 — equivalence of the two add_months revisions
-- =========================================================================

/-- C7 counterexample: the two `add_months` revisions disagree at June 30,
2025 plus one month (July 30 versus July 31). -/
theorem C7_counterexample :
    Main.add_months ⟨2025, 6, 30⟩ 1 ≠
      ExcelPortfolioAutomation.add_months ⟨2025, 6, 30⟩ 1 := by
  decide

/-- C7 amended: the two `add_months` revisions agree on every date that is
not the last calendar day of its month, and also on every month-end date
whose day already reaches the target month's length; they differ exactly on
the month-end dates whose day falls short of the target month's length —
the inputs routed through the month-end branch of the class revision with a
longer target month. -/
theorem C7_amended_agree_off_month_end (d : PyDate) (n : Int) :
    (is_month_end d = false →
      Main.add_months d n = ExcelPortfolioAutomation.add_months d n) ∧
    (is_month_end d = true →
      daysInMonth (Main.add_months d n).year (Main.add_months d n).month ≤ d.day →
      Main.add_months d n = ExcelPortfolioAutomation.add_months d n) ∧
    (Main.add_months d n ≠ ExcelPortfolioAutomation.add_months d n ↔
      is_month_end d = true ∧
        d.day < daysInMonth (Main.add_months d n).year (Main.add_months d n).month) := by
  have hmain : Main.add_months d n =
      ⟨(Main.add_months d n).year, (Main.add_months d n).month,
       min d.day (daysInMonth (Main.add_months d n).year
         (Main.add_months d n).month)⟩ := rfl
  by_cases hval : is_month_end d = true
  · have hepa : ExcelPortfolioAutomation.add_months d n =
        ⟨(Main.add_months d n).year, (Main.add_months d n).month,
         daysInMonth (Main.add_months d n).year (Main.add_months d n).month⟩ := by
      simp only [ExcelPortfolioAutomation.add_months, Main.add_months]
      rw [if_pos hval]
    refine ⟨?_, ?_, ?_⟩
    · intro hcontra
      rw [hval] at hcontra
      exact absurd hcontra (by simp)
    · intro _ htl
      rw [hepa]
      conv_lhs => rw [hmain]
      rw [min_eq_right htl]
    · constructor
      · intro hne
        refine ⟨hval, ?_⟩
        by_contra hnot
        push_neg at hnot
        apply hne
        rw [hepa]
        conv_lhs => rw [hmain]
        rw [min_eq_right hnot]
      · rintro ⟨-, hday⟩ heq
        rw [hepa] at heq
        have hd := congrArg PyDate.day heq
        rw [hmain] at hd
        simp only at hd
        have hle := min_le_left d.day (daysInMonth (Main.add_months d n).year
          (Main.add_months d n).month)
        omega
  · have hval2 : is_month_end d = false := by
      cases hb : is_month_end d with
      | true => exact absurd hb hval
      | false => rfl
    have hepa : ExcelPortfolioAutomation.add_months d n = Main.add_months d n := by
      simp only [ExcelPortfolioAutomation.add_months, Main.add_months]
      rw [if_neg (by rw [hval2]; simp)]
    refine ⟨fun _ => hepa.symm, ?_, ?_⟩
    · intro hcontra
      exact absurd hcontra hval
    · constructor
      · intro hne
        exact absurd hepa.symm hne
      · rintro ⟨hcontra, -⟩
        exact absurd hcontra hval

/-- C7 witness: the two revisions agree at Jan 15, 2025 (not month-end) plus
one month, and at Mar 31, 2025 (month-end, with the target month April no
longer than 31 days) plus one month. -/
theorem C7_witness :
    (is_month_end ⟨2025, 1, 15⟩ = false ∧
     Main.add_months ⟨2025, 1, 15⟩ 1 =
       ExcelPortfolioAutomation.add_months ⟨2025, 1, 15⟩ 1) ∧
    (is_month_end ⟨2025, 3, 31⟩ = true ∧
     Main.add_months ⟨2025, 3, 31⟩ 1 =
       ExcelPortfolioAutomation.add_months ⟨2025, 3, 31⟩ 1) :=
  ⟨⟨by decide, (C7_amended_agree_off_month_end ⟨2025, 1, 15⟩ 1).1 (by decide)⟩,
   ⟨by decide,
    (C7_amended_agree_off_month_end ⟨2025, 3, 31⟩ 1).2.1 (by decide) (by decide)⟩⟩

-- =========================================================================
-- Claim C3 — merge deduplication is last-write-wins per RecordKey
-- =========================================================================

/-- C3: merging `OLDER` rows, `LATEST` rows and newly extracted rows in that
arrival order and deduplicating with `keep='last'` leaves at most one row per
`(MONTH, CONTRACT_NO)` key, and for each key exactly the row that arrived
last — so new data strictly overrides stored data and `LATEST` overrides
same-key `OLDER` data. -/
theorem C3_merge_last_write_wins (p1_data p2_data nw : List Record)
    (k : String × String) :
    ((drop_duplicates_keep_last (p1_data ++ p2_data ++ nw)).map recordKey).Nodup ∧
    (drop_duplicates_keep_last (p1_data ++ p2_data ++ nw)).filter
        (fun r => decide (recordKey r = k))
      = ((p1_data ++ p2_data ++ nw).filter
          (fun r => decide (recordKey r = k))).getLast?.toList :=
  ⟨drop_duplicates_keys_nodup _, drop_duplicates_filter_key _ k⟩

-- =========================================================================
-- Claim C10 — MONTH is compared as a raw string in deduplication
-- =========================================================================

/-- C10: duplicate resolution compares the `MONTH` field as raw text, so two
rows with the same contract number but different `MONTH` strings carry
distinct keys and both survive `keep='last'` deduplication, even when the two
strings denote the same calendar month. -/
theorem C10_month_compared_as_string (a b : Record)
    (hc : a.CONTRACT_NO = b.CONTRACT_NO) (hm : a.MONTH ≠ b.MONTH) :
    recordKey a ≠ recordKey b ∧ drop_duplicates_keep_last [a, b] = [a, b] := by
  have hk : recordKey a ≠ recordKey b := by
    intro h
    exact hm (congrArg Prod.fst h)
  have hk2 : recordKey b ≠ recordKey a := fun h => hk h.symm
  refine ⟨hk, ?_⟩
  simp [drop_duplicates_keep_last, hk2]

/-- C10 witness: `06/15/2025` and `06/30/2025` denote the same calendar
month (both parse to June 2025) but are distinct keys, and both rows survive
deduplication. -/
theorem C10_witness :
    (parseMonthString "06/15/2025" = some ⟨2025, 6, 15⟩ ∧
     parseMonthString "06/30/2025" = some ⟨2025, 6, 30⟩) ∧
    (recordKey ⟨"06/15/2025", "C001", "EQ", "PD1", "10"⟩ ≠
       recordKey ⟨"06/30/2025", "C001", "EQ", "PD1", "15"⟩ ∧
     drop_duplicates_keep_last
        [⟨"06/15/2025", "C001", "EQ", "PD1", "10"⟩,
         ⟨"06/30/2025", "C001", "EQ", "PD1", "15"⟩]
       = [⟨"06/15/2025", "C001", "EQ", "PD1", "10"⟩,
          ⟨"06/30/2025", "C001", "EQ", "PD1", "15"⟩]) :=
  ⟨⟨by decide, by decide⟩,
   C10_month_compared_as_string _ _ rfl (by decide)⟩

-- =========================================================================
-- Claim C9 — NoForwardProgress is an early, write-free, idempotent no-op
-- =========================================================================

/-- C9: whenever `months_between(anchor, requestedEndMonth) ≤ 0` the run
aborts on the no-forward-progress path before locating or extracting any
data, performs no portfolio writes, and never reaches `save_config`, leaving
the persisted anchor unchanged.  Because the run is a pure function of its
environment and changes no state, a repeated call with `requestedEndMonth`
equal to the current anchor yields this same no-op outcome every time. -/
theorem C9_no_forward_progress (inp : RunInput)
    (h : Main.months_between inp.current_latest inp.new_end_month ≤ 0) :
    run_automation inp =
      { success := false, error := some RunError.noForwardProgress,
        writes := none, savedConfig := none, extractedMonths := [] } := by
  have h0 : num_new_months inp ≤ 0 := h
  simp only [run_automation]
  rw [if_pos h0]

/-- C9 witness: requesting an end month equal to the anchor. -/
theorem C9_witness :
    Main.months_between (⟨2025, 6, 30⟩ : PyDate) (⟨2025, 6, 30⟩ : PyDate) ≤ 0 ∧
    run_automation
        { current_latest := ⟨2025, 6, 30⟩, new_end_month := ⟨2025, 6, 30⟩,
          hasFile := fun _ => true,
          dataFor := fun _ => [⟨"", "C001", "EQ", "PD1", "0"⟩],
          p1_data := [], p2_data := [] }
      = { success := false, error := some RunError.noForwardProgress,
          writes := none, savedConfig := none, extractedMonths := [] } :=
  ⟨by decide,
   C9_no_forward_progress
     { current_latest := ⟨2025, 6, 30⟩, new_end_month := ⟨2025, 6, 30⟩,
       hasFile := fun _ => true,
       dataFor := fun _ => [⟨"", "C001", "EQ", "PD1", "0"⟩],
       p1_data := [], p2_data := [] }
     (by decide)⟩

-- =========================================================================
-- Claim C2 — the anchor persisted after a clamped run
-- =========================================================================

/-- The C2 failing input: anchor `12/31/2024`, requested end month
`12/31/2025` (12 months ahead, clamped to 6 ingested months), every summary
file present and nonempty. -/
def c2Input : RunInput :=
  { current_latest := ⟨2024, 12, 31⟩, new_end_month := ⟨2025, 12, 31⟩,
    hasFile := fun _ => true,
    dataFor := fun _ => [⟨"", "C001", "EQ", "PD1", "0"⟩],
    p1_data := [], p2_data := [] }

/-- C2: the code at the failing input.  Twelve months are requested, only the
6 months through `06/30/2025` are ingested (`extractedMonths`), yet
`save_config(new_end_month)` persists the originally requested `12/31/2025`
— not the clamped month actually ingested, `add_months(anchor, 6) =
06/30/2025`, contradicting the claim (and losing the never-ingested months
`07/2025`–`12/2025` for every later run). -/
theorem C2_clamped_run_saves_requested_month :
    num_new_months c2Input = 12 ∧
    (run_automation c2Input).extractedMonths
      = [⟨2025, 1, 31⟩, ⟨2025, 2, 28⟩, ⟨2025, 3, 31⟩,
         ⟨2025, 4, 30⟩, ⟨2025, 5, 31⟩, ⟨2025, 6, 30⟩] ∧
    Main.add_months (⟨2024, 12, 31⟩ : PyDate) 6 = ⟨2025, 6, 30⟩ ∧
    (run_automation c2Input).savedConfig = some ⟨2025, 12, 31⟩ ∧
    (run_automation c2Input).savedConfig ≠
      some (Main.add_months (⟨2024, 12, 31⟩ : PyDate) 6) := by
  refine ⟨by decide, by decide, by decide, by decide, by decide⟩

-- =========================================================================
-- Claim C4 — missing source months are not fatal; partial ingestion occurs
-- =========================================================================

/-- The C4 input: two months requested (`05/2025`, `06/2025`), only the first
month's summary file exists on disk. -/
def c4Input : RunInput :=
  { current_latest := ⟨2025, 4, 30⟩, new_end_month := ⟨2025, 6, 30⟩,
    hasFile := fun d => decide (d = ⟨2025, 5, 30⟩),
    dataFor := fun _ => [⟨"", "C001", "EQ", "PD1", "0"⟩],
    p1_data := [], p2_data := [] }

/-- C4 counterexample: with one of the two requested months missing, the run
does not fail — it succeeds, ingesting only the month that was found, so
partial ingestion does occur.  (A missing month only prints
`WARNING: No file for ...` in `find_summary_files`.) -/
theorem C4_counterexample :
    num_new_months c4Input = 2 ∧
    (run_automation c4Input).extractedMonths = [⟨2025, 5, 30⟩] ∧
    (run_automation c4Input).success = true ∧
    (run_automation c4Input).error = none ∧
    (run_automation c4Input).writes ≠ none := by
  refine ⟨by decide, by decide, by decide, by decide, by decide⟩

/-- C4 amended: the run aborts with the source-data-missing error only when
**no** requested month's file is found at all; as soon as at least one
requested month is located and yields records, the run proceeds to a full,
successful roll-forward over just the found months — missing months are
skipped with a warning, and the anchor is still advanced to the requested
end month. -/
theorem C4_amended_only_all_missing_fatal (inp : RunInput)
    (h0 : 0 < num_new_months inp) :
    (summary_files inp = [] →
      run_automation inp =
        { success := false, error := some RunError.noSummaryFiles,
          writes := none, savedConfig := none, extractedMonths := [] }) ∧
    (summary_files inp ≠ [] → new_data inp ≠ [] →
      (run_automation inp).success = true ∧
      (run_automation inp).error = none ∧
      (run_automation inp).extractedMonths = summary_files inp ∧
      (run_automation inp).savedConfig = some inp.new_end_month ∧
      (run_automation inp).writes ≠ none) := by
  have hn : ¬ num_new_months inp ≤ 0 := by omega
  constructor
  · intro hempty
    simp only [run_automation]
    rw [if_neg hn, if_pos hempty]
  · intro hfound hdata
    simp only [run_automation]
    rw [if_neg hn, if_neg hfound, if_neg hdata]
    exact ⟨rfl, rfl, rfl, rfl, by simp⟩

/-- C4 witness: the partial-ingestion branch of the amended claim at the
concrete two-months-requested, one-month-found input. -/
theorem C4_witness :
    (0 < num_new_months c4Input ∧
     summary_files c4Input ≠ [] ∧ new_data c4Input ≠ []) ∧
    ((run_automation c4Input).success = true ∧
     (run_automation c4Input).error = none ∧
     (run_automation c4Input).extractedMonths = summary_files c4Input ∧
     (run_automation c4Input).savedConfig = some c4Input.new_end_month ∧
     (run_automation c4Input).writes ≠ none) :=
  ⟨⟨by decide, by decide, by decide⟩,
   (C4_amended_only_all_missing_fatal c4Input (by decide)).2
     (by decide) (by decide)⟩

-- =========================================================================
-- Claim C1 — the 7/6 segment split
-- =========================================================================

theorem new_p1_months_subset (w : List PyDate) : new_p1_months w ⊆ w := by
  simp only [new_p1_months]
  split
  · exact List.take_subset _ _
  · exact List.nil_subset w

theorem new_p2_months_subset (w : List PyDate) : new_p2_months w ⊆ w := by
  simp only [new_p2_months]
  split
  · exact List.drop_subset _ _
  · exact fun x hx => hx

/-- C1 counterexample: a sorted window of 7 distinct months.  The claim says
`OLDER` should get the oldest `7 − 6 = 1` month and the segments should be
disjoint; the code instead puts all 7 months into `OLDER`
(`all_months[:7]`), so `02/2025` (and four more months) lies in both
segments. -/
theorem C1_counterexample :
    6 < ([⟨2025, 1, 31⟩, ⟨2025, 2, 28⟩, ⟨2025, 3, 31⟩, ⟨2025, 4, 30⟩,
          ⟨2025, 5, 31⟩, ⟨2025, 6, 30⟩, ⟨2025, 7, 31⟩] : List PyDate).length ∧
    ([⟨2025, 1, 31⟩, ⟨2025, 2, 28⟩, ⟨2025, 3, 31⟩, ⟨2025, 4, 30⟩,
      ⟨2025, 5, 31⟩, ⟨2025, 6, 30⟩, ⟨2025, 7, 31⟩] : List PyDate).length ≤ 13 ∧
    (new_p1_months [⟨2025, 1, 31⟩, ⟨2025, 2, 28⟩, ⟨2025, 3, 31⟩, ⟨2025, 4, 30⟩,
        ⟨2025, 5, 31⟩, ⟨2025, 6, 30⟩, ⟨2025, 7, 31⟩]).length ≠ 7 - 6 ∧
    (⟨2025, 2, 28⟩ : PyDate) ∈
      new_p1_months [⟨2025, 1, 31⟩, ⟨2025, 2, 28⟩, ⟨2025, 3, 31⟩, ⟨2025, 4, 30⟩,
        ⟨2025, 5, 31⟩, ⟨2025, 6, 30⟩, ⟨2025, 7, 31⟩] ∧
    (⟨2025, 2, 28⟩ : PyDate) ∈
      new_p2_months [⟨2025, 1, 31⟩, ⟨2025, 2, 28⟩, ⟨2025, 3, 31⟩, ⟨2025, 4, 30⟩,
        ⟨2025, 5, 31⟩, ⟨2025, 6, 30⟩, ⟨2025, 7, 31⟩] := by
  decide

/-- C1 amended: for a strictly ascending window `l` of `m` distinct months,
the code's split gives `OLDER = l[:7]` (the oldest `min(7, m)` months, not
`m − 6`) and `LATEST` the 6 most recent months whenever `m > 6`; the two
segments partition the window — with every `OLDER` month strictly before
every `LATEST` month — exactly when `m = 13`, and they overlap in at least
one month whenever `6 < m < 13`.  When `m ≤ 6`, `OLDER` is empty and all
months go to `LATEST` as claimed. -/
theorem C1_amended_split (l : List PyDate) (hs : l.Pairwise PyDate.Before) :
    (l.length ≤ 6 → new_p1_months l = [] ∧ new_p2_months l = l) ∧
    (6 < l.length → new_p1_months l = l.take 7 ∧
      new_p2_months l = l.drop (l.length - 6)) ∧
    (l.length = 13 →
      new_p1_months l ++ new_p2_months l = l ∧
      ∀ x ∈ new_p1_months l, ∀ y ∈ new_p2_months l, x.Before y) ∧
    (6 < l.length → l.length < 13 →
      ∃ x, x ∈ new_p1_months l ∧ x ∈ new_p2_months l) := by
  have hp1big : 6 < l.length → new_p1_months l = l.take 7 := by
    intro h
    simp only [new_p1_months, PORTFOLIO_1_MONTHS, PORTFOLIO_2_MONTHS]
    rw [if_pos (by omega)]
  have hp2big : 6 ≤ l.length → new_p2_months l = l.drop (l.length - 6) := by
    intro h
    simp only [new_p2_months, PORTFOLIO_2_MONTHS]
    rw [if_pos (by omega)]
  refine ⟨?_, ?_, ?_, ?_⟩
  · intro h6
    constructor
    · simp only [new_p1_months, PORTFOLIO_2_MONTHS]
      rw [if_neg (by omega)]
    · rcases Nat.lt_or_ge l.length 6 with h | h
      · simp only [new_p2_months, PORTFOLIO_2_MONTHS]
        rw [if_neg (by omega)]
      · have h66 : l.length - 6 = 0 := by omega
        rw [hp2big h, h66, List.drop_zero]
  · intro h6
    exact ⟨hp1big h6, hp2big (by omega)⟩
  · intro h13
    have hlen7 : l.length - 6 = 7 := by omega
    have hp1 : new_p1_months l = l.take 7 := hp1big (by omega)
    have hp2 : new_p2_months l = l.drop 7 := by
      rw [hp2big (by omega), hlen7]
    constructor
    · rw [hp1, hp2, List.take_append_drop]
    · intro x hx y hy
      have hsplit : (l.take 7 ++ l.drop 7).Pairwise PyDate.Before := by
        rw [List.take_append_drop]
        exact hs
      exact (List.pairwise_append.mp hsplit).2.2 x (hp1 ▸ hx) y (hp2 ▸ hy)
  · intro h6 h13
    have hp1 : new_p1_months l = l.take 7 := hp1big h6
    have hp2 : new_p2_months l = l.drop (l.length - 6) := hp2big (by omega)
    have hAne : (l.take 7).drop (l.length - 6) ≠ [] := by
      apply List.ne_nil_of_length_pos
      rw [List.length_drop, List.length_take]
      omega
    have hdecomp : l.drop (l.length - 6)
        = (l.take 7).drop (l.length - 6) ++ l.drop 7 := by
      have hle : l.length - 6 ≤ (l.take 7).length := by
        rw [List.length_take]
        omega
      calc l.drop (l.length - 6)
          = (l.take 7 ++ l.drop 7).drop (l.length - 6) := by
            rw [List.take_append_drop]
        _ = (l.take 7).drop (l.length - 6) ++ l.drop 7 :=
            List.drop_append_of_le_length hle
    refine ⟨((l.take 7).drop (l.length - 6)).head hAne, ?_, ?_⟩
    · rw [hp1]
      exact List.drop_subset _ _ (List.head_mem hAne)
    · rw [hp2, hdecomp]
      exact List.mem_append_left _ (List.head_mem hAne)

/-- C1 witness: a strictly ascending 13-month window, on which the split is
the claimed partition. -/
theorem C1_witness :
    ([⟨2024, 1, 31⟩, ⟨2024, 2, 29⟩, ⟨2024, 3, 31⟩, ⟨2024, 4, 30⟩,
      ⟨2024, 5, 31⟩, ⟨2024, 6, 30⟩, ⟨2024, 7, 31⟩, ⟨2024, 8, 31⟩,
      ⟨2024, 9, 30⟩, ⟨2024, 10, 31⟩, ⟨2024, 11, 30⟩, ⟨2024, 12, 31⟩,
      ⟨2025, 1, 31⟩] : List PyDate).Pairwise PyDate.Before ∧
    new_p1_months
        [⟨2024, 1, 31⟩, ⟨2024, 2, 29⟩, ⟨2024, 3, 31⟩, ⟨2024, 4, 30⟩,
         ⟨2024, 5, 31⟩, ⟨2024, 6, 30⟩, ⟨2024, 7, 31⟩, ⟨2024, 8, 31⟩,
         ⟨2024, 9, 30⟩, ⟨2024, 10, 31⟩, ⟨2024, 11, 30⟩, ⟨2024, 12, 31⟩,
         ⟨2025, 1, 31⟩] ++
      new_p2_months
        [⟨2024, 1, 31⟩, ⟨2024, 2, 29⟩, ⟨2024, 3, 31⟩, ⟨2024, 4, 30⟩,
         ⟨2024, 5, 31⟩, ⟨2024, 6, 30⟩, ⟨2024, 7, 31⟩, ⟨2024, 8, 31⟩,
         ⟨2024, 9, 30⟩, ⟨2024, 10, 31⟩, ⟨2024, 11, 30⟩, ⟨2024, 12, 31⟩,
         ⟨2025, 1, 31⟩]
      = [⟨2024, 1, 31⟩, ⟨2024, 2, 29⟩, ⟨2024, 3, 31⟩, ⟨2024, 4, 30⟩,
         ⟨2024, 5, 31⟩, ⟨2024, 6, 30⟩, ⟨2024, 7, 31⟩, ⟨2024, 8, 31⟩,
         ⟨2024, 9, 30⟩, ⟨2024, 10, 31⟩, ⟨2024, 11, 30⟩, ⟨2024, 12, 31⟩,
         ⟨2025, 1, 31⟩] :=
  ⟨by decide,
   ((C1_amended_split _ (by decide)).2.2.1 (by decide)).1⟩

-- =========================================================================
-- Claim C5 — window truncation to the 13 latest months
-- =========================================================================

/-- C5: when the deduplicated record set spans more than 13 distinct parsed
months, the truncated window keeps exactly 13 months, every dropped month is
strictly before every kept month (so the window is the 13 chronologically
latest), and a record whose parsed month is not in the window appears in
neither the `OLDER` nor the `LATEST` output of the month filter. -/
theorem C5_window_truncation (rows : List Record)
    (h13 : TOTAL_MONTHS < (get_unique_months rows).length) :
    (truncateWindow (get_unique_months rows)).length = TOTAL_MONTHS ∧
    (∀ x ∈ get_unique_months rows,
      x ∉ truncateWindow (get_unique_months rows) →
      ∀ y ∈ truncateWindow (get_unique_months rows), x.Before y) ∧
    (∀ r ∈ rows, ∀ d : PyDate, parseMonthString r.MONTH = some d →
      d ∉ truncateWindow (get_unique_months rows) →
      r ∉ filter_by_months rows
            (new_p1_months (truncateWindow (get_unique_months rows))) ∧
      r ∉ filter_by_months rows
            (new_p2_months (truncateWindow (get_unique_months rows)))) := by
  have hw : truncateWindow (get_unique_months rows)
      = (get_unique_months rows).drop ((get_unique_months rows).length - TOTAL_MONTHS) := by
    simp only [truncateWindow]
    rw [if_pos h13]
  have hs : (get_unique_months rows).Pairwise PyDate.Before :=
    pairwise_sortMonths _
  refine ⟨?_, ?_, ?_⟩
  · rw [hw, List.length_drop]
    simp only [TOTAL_MONTHS] at h13 ⊢
    omega
  · intro x hx hnx y hy
    have hxtake : x ∈ (get_unique_months rows).take
        ((get_unique_months rows).length - TOTAL_MONTHS) := by
      rw [← List.take_append_drop
        ((get_unique_months rows).length - TOTAL_MONTHS) (get_unique_months rows)]
        at hx
      rcases List.mem_append.mp hx with h | h
      · exact h
      · rw [hw] at hnx
        exact absurd h hnx
    have hsplit : ((get_unique_months rows).take
          ((get_unique_months rows).length - TOTAL_MONTHS) ++
        (get_unique_months rows).drop
          ((get_unique_months rows).length - TOTAL_MONTHS)).Pairwise
        PyDate.Before := by
      rw [List.take_append_drop]
      exact hs
    exact (List.pairwise_append.mp hsplit).2.2 x hxtake y (hw ▸ hy)
  · intro r hr d hparse hnd
    have hkeep : ∀ keep : List PyDate,
        keep ⊆ truncateWindow (get_unique_months rows) →
        r ∉ filter_by_months rows keep := by
      intro keep hsub hmem
      have hpred := (List.mem_filter.mp hmem).2
      rw [monthKeep, hparse] at hpred
      exact hnd (hsub (of_decide_eq_true hpred))
    exact ⟨hkeep _ (new_p1_months_subset _), hkeep _ (new_p2_months_subset _)⟩

/-- C5 witness input: fourteen records in fourteen distinct months
(`01/2024` … `02/2025`). -/
def c5Rows : List Record :=
  [⟨"01/31/2024", "C001", "EQ", "PD1", "0"⟩,
   ⟨"02/29/2024", "C001", "EQ", "PD1", "0"⟩,
   ⟨"03/31/2024", "C001", "EQ", "PD1", "0"⟩,
   ⟨"04/30/2024", "C001", "EQ", "PD1", "0"⟩,
   ⟨"05/31/2024", "C001", "EQ", "PD1", "0"⟩,
   ⟨"06/30/2024", "C001", "EQ", "PD1", "0"⟩,
   ⟨"07/31/2024", "C001", "EQ", "PD1", "0"⟩,
   ⟨"08/31/2024", "C001", "EQ", "PD1", "0"⟩,
   ⟨"09/30/2024", "C001", "EQ", "PD1", "0"⟩,
   ⟨"10/31/2024", "C001", "EQ", "PD1", "0"⟩,
   ⟨"11/30/2024", "C001", "EQ", "PD1", "0"⟩,
   ⟨"12/31/2024", "C001", "EQ", "PD1", "0"⟩,
   ⟨"01/31/2025", "C001", "EQ", "PD1", "0"⟩,
   ⟨"02/28/2025", "C001", "EQ", "PD1", "0"⟩]

/-- C5 witness: the fourteen-month record set spans more than 13 months and
its truncated window has exactly 13. -/
theorem C5_witness :
    TOTAL_MONTHS < (get_unique_months c5Rows).length ∧
    (truncateWindow (get_unique_months c5Rows)).length = TOTAL_MONTHS :=
  ⟨by decide, (C5_window_truncation c5Rows (by decide)).1⟩
